import Mathlib

set_option maxHeartbeats 1000000

/-!
Shallow embedding of the `fandango` Go package (an upcoming-movies API
client): configuration, URL building, response parsing, link resolution,
and the channel-based pagination engine of `Client.UpcomingMovies`.
Concurrency is modelled by an explicit per-cycle step function on an
engine state; the `select` between the throttle tick and the
cancellation channel is modelled by a per-cycle boolean pick.
-/

namespace Fandango

/-! ## Whitespace trimming (Go `strings.TrimSpace`) -/

/-- Predicate for the characters trimmed by `strings.TrimSpace`
(whitespace; the client only ever trims ASCII keys). -/
def isSpaceChar (c : Char) : Bool := c.isWhitespace

/-- Drop leading whitespace, then trailing whitespace, from a character list. -/
def trimChars (l : List Char) : List Char :=
  ((l.dropWhile isSpaceChar).reverse.dropWhile isSpaceChar).reverse

/-- Model of Go `strings.TrimSpace`. -/
def trimSpace (s : String) : String := String.mk (trimChars s.data)

/-! ## Query escaping and `url.Values` (Go `net/url`) -/

/-- Uppercase hexadecimal digit for a value below 16. -/
def upperHexDigit (n : Nat) : Char :=
  if n < 10 then Char.ofNat (48 + n) else Char.ofNat (55 + n)

/-- Percent-encoding `%XX` of one byte value, uppercase hex (as Go emits). -/
def percentEncodeByte (n : Nat) : String :=
  String.mk ['%', upperHexDigit (n / 16 % 16), upperHexDigit (n % 16)]

/-- Characters Go leaves unescaped in a query component: alphanumerics
and `-`, `_`, `.`, `~`. -/
def isQueryUnescaped (c : Char) : Bool :=
  c.isAlphanum || c == '-' || c == '_' || c == '.' || c == '~'

/-- Escape one character the way Go `url.QueryEscape` escapes one byte
(the client only ever escapes ASCII data, where byte = character):
space becomes `+`, unescaped characters stay, all else is percent-encoded. -/
def queryEscapeChar (c : Char) : String :=
  if c == ' ' then "+"
  else if isQueryUnescaped c then String.singleton c
  else percentEncodeByte c.toNat

/-- Model of Go `url.QueryEscape` on ASCII strings. -/
def QueryEscape (s : String) : String :=
  String.join (s.data.map queryEscapeChar)

/-- Go `url.Values`: keys mapped to lists of values. An association list
models the map; `URLValues.encode` sorts by key exactly as Go does, so the
association order never shows in an encoded URL. -/
abbrev URLValues := List (String × List String)

/-- Go `url.Values.Set`: replace the values of a key by a one-element list,
or add the key. -/
def URLValues.set (v : URLValues) (key value : String) : URLValues :=
  match v with
  | [] => [(key, [value])]
  | (k, vs) :: rest =>
      if k == key then (key, [value]) :: rest
      else (k, vs) :: URLValues.set rest key value

/-- Insert a key into a `≤`-sorted list of keys. -/
def insertSortedKey (x : String) : List String → List String
  | [] => [x]
  | y :: ys => if y < x then y :: insertSortedKey x ys else x :: y :: ys

/-- Sort keys lexicographically, as Go `url.Values.Encode` does before
emitting parameters. -/
def sortKeys : List String → List String
  | [] => []
  | x :: xs => insertSortedKey x (sortKeys xs)

/-- Model of Go `url.Values.Encode`: parameters are emitted in sorted key
order, keys and values query-escaped, joined by `&`. -/
def URLValues.encode (v : URLValues) : String :=
  let keys := sortKeys (v.map Prod.fst)
  let parts := keys.map fun k =>
    ((v.lookup k).getD []).map fun val => QueryEscape k ++ "=" ++ QueryEscape val
  String.intercalate "&" parts.flatten

/-! ## Client configuration -/

/-- The client configuration: API version and API key. The Go struct also
embeds an `RWMutex`; locking has no observable effect on the sequential
semantics modelled here and is omitted. -/
structure Client where
  version : String
  apiKey : String
deriving DecidableEq

/-- Hardcoded default API version. -/
def defaultAPIVersion : String := "1.0"

/-- `Client.APIKey`: plain read accessor. -/
def Client.APIKey (c : Client) : String := c.apiKey

/-- `Client.APIVersion`: returns the default when the version is unset. -/
def Client.APIVersion (c : Client) : String :=
  if c.version = "" then defaultAPIVersion else c.version

/-- `Client.SetAPIKey`: trims whitespace and stores the key. -/
def Client.SetAPIKey (c : Client) (key : String) : Client :=
  { c with apiKey := trimSpace key }

/-- `Client.SetVersion`: stores the raw version string. -/
def Client.SetVersion (c : Client) (v : String) : Client :=
  { c with version := v }

/-- The loop body of `envOrDefault`: the first fallback that is non-blank
after trimming wins; the trimmed last candidate (blank) remains otherwise. -/
def firstFallback : List String → String
  | [] => ""
  | x :: rest => if trimSpace x ≠ "" then trimSpace x else firstFallback rest

/-- `envOrDefault`: the trimmed environment value if non-blank, otherwise
the first fallback that is non-blank after trimming. The environment is
passed as the value of the variable (`os.Getenv` yields `""` when unset). -/
def envOrDefault (envValue : String) (fallbacks : List String) : String :=
  if trimSpace envValue ≠ "" then trimSpace envValue else firstFallback fallbacks

/-- The `errEmptyAPIKey` error value. -/
def errEmptyAPIKey : String := "empty api key"

/-- `NewDefaultClient`: resolve the key via `envOrDefault`, store it with
`SetAPIKey`, fail when the stored key is empty. -/
def NewDefaultClient (envValue : String) (apiKeysToTry : List String) :
    Except String Client :=
  let client : Client := { version := "", apiKey := "" }
  let client := client.SetAPIKey (envOrDefault envValue apiKeysToTry)
  if client.APIKey = "" then .error errEmptyAPIKey else .ok client

/-! ## Data model -/

/-- `Size` is a string type in Go; the four constants below are its
documented values. -/
abbrev Size := String

/-- The `unknown` poster size. -/
def SzUnknown : Size := "unknown"

/-- The `thumbnail` poster size. -/
def SzThumbnail : Size := "thumbnail"

/-- The `profile` poster size. -/
def SzProfile : Size := "profile"

/-- The `original` poster size. -/
def SzOriginal : Size := "original"

/-- `Poster`: map from size to URL. -/
abbrev Poster := List (Size × String)

/-- A cast member. -/
structure Star where
  Name : String
  Id : String
  Characters : List String

/-- `Cast`: ordered list of cast members. -/
abbrev Cast := List Star

/-- Arbitrary decoded JSON values, the shape of Go `interface\x7b\x7d`
values produced by `json.Unmarshal`. -/
inductive JSONish where
  | null
  | bool (b : Bool)
  | num (n : Int)
  | str (s : String)
  | arr (elems : List JSONish)
  | obj (fields : List (String × JSONish))

/-- `Rating`: open-ended map from rating name to arbitrary value. -/
abbrev Rating := List (String × JSONish)

/-- `LinksMap`: map from relation name to URL. A Go nil map and an empty
map index identically, so both are the empty association list. -/
abbrev LinksMap := List (String × String)

/-- One movie record, as decoded from the response body. -/
structure Movie where
  Title : String
  Year : Int
  MPAARating : String
  RuntimeMinutes : Float
  CriticsConsensus : String
  ReleaseDates : List (String × String)
  Ratings : Rating
  Synopsis : String
  Posters : Poster
  AbridgedCast : Cast
  Links : LinksMap

/-- One result page of the upcoming-movies listing. -/
structure UpcomingMoviesResultPage where
  Total : Nat
  Movies : List Movie
  Links : LinksMap
  LinkTemplate : String

/-- The receive end of the query's cancellation channel `<-chan struct\x7b\x7d`:
either the nil channel (zero value, a receive blocks forever), an open
channel with nothing pending, or a closed channel (a receive is always
immediately ready). -/
inductive CancelSignal where
  | nilChan
  | openIdle
  | closedChan
deriving DecidableEq

/-- Whether a receive on the cancellation channel can fire right now. -/
def CancelSignal.ready : CancelSignal → Bool
  | .closedChan => true
  | _ => false

/-- The query: page size, page number, country, cancellation channel. -/
structure UpcomingMovieSearch where
  ItemsPerPage : Int
  MaxPage : Int
  Country : String
  Cancel : CancelSignal
deriving DecidableEq

/-! ## URL building -/

/-- The fixed API base endpoint. -/
def baseURL : String := "http://api.rottentomatoes.com/api/public"

/-- The `url.Values` built by `makeUpcomingMoviesURL`: always the API key;
`page_limit`, `page`, `country` only when the corresponding query field is
positive or non-empty. A nil query contributes nothing. -/
def Client.upcomingValues (c : Client) (q : Option UpcomingMovieSearch) : URLValues :=
  let values : URLValues := [("apikey", [c.apiKey])]
  match q with
  | none => values
  | some q =>
      let values :=
        if q.ItemsPerPage > 0 then URLValues.set values "page_limit" (toString q.ItemsPerPage)
        else values
      let values :=
        if q.MaxPage > 0 then URLValues.set values "page" (toString q.MaxPage)
        else values
      if q.Country ≠ "" then URLValues.set values "country" q.Country else values

/-- The full URL string `makeUpcomingMoviesURL` formats. -/
def Client.upcomingMoviesURL (c : Client) (q : Option UpcomingMovieSearch) : String :=
  baseURL ++ "/v" ++ c.APIVersion ++ "/lists/movies/upcoming/json?"
    ++ URLValues.encode (c.upcomingValues q)

/-- `makeUpcomingMoviesURL`: returns the full URL and a nil error
(the Go function never fails; the error slot exists in its signature). -/
def Client.makeUpcomingMoviesURL (c : Client) (q : Option UpcomingMovieSearch) :
    Except String String :=
  .ok (c.upcomingMoviesURL q)

/-! ## Link resolution -/

/-- `(*LinksMap).GetNextURL`: `""` on a nil receiver, otherwise the map
entry at `"next"` (Go map indexing yields `""` when the key is absent). -/
def LinksMap.GetNextURL : Option LinksMap → String
  | none => ""
  | some l => (l.lookup "next").getD ""

/-! ## Response parsing -/

/-- An HTTP response as the parser consumes it: status code, status text,
and the outcome of reading the body (`ioutil.ReadAll` can fail). The body
blob type `β` is abstract; JSON decoding is a black-box parameter. -/
structure HttpResponse (β : Type) where
  statusCode : Int
  status : String
  body : Except String β

/-- The three failure shapes of `parseUpcomingMoviesResponse`: a non-2xx
status (carrying the status text), a body read failure, a decode failure. -/
inductive ParseError where
  | httpStatus (status : String)
  | ioError (msg : String)
  | decodeError (msg : String)
deriving DecidableEq

/-- `statusOK`: the status code lies in [200, 299]. -/
def statusOK (code : Int) : Bool :=
  decide (200 ≤ code) && decide (code ≤ 299)

/-- `parseUpcomingMoviesResponse`: reject a non-2xx status with the status
text, then read the body, then decode it with the black-box `unmarshal`;
return the decoded page with no further validation. -/
def parseUpcomingMoviesResponse {β : Type}
    (unmarshal : β → Except String UpcomingMoviesResultPage)
    (res : HttpResponse β) : Except ParseError UpcomingMoviesResultPage :=
  if !statusOK res.statusCode then .error (.httpStatus res.status)
  else
    match res.body with
    | .error e => .error (.ioError e)
    | .ok blob =>
        match unmarshal blob with
        | .error e => .error (.decodeError e)
        | .ok umpage => .ok umpage

/-! ## Pagination engine

The goroutine of `UpcomingMovies` keeps a `working` flag, the current
`dataURL`, and has sent some pages on `pagesChan` (`emitted`, in send
order). Each `for working` iteration runs one `select`: the cancellation
case or the throttle-tick case. The deferred `close(pagesChan)` fires
exactly when the loop exits, i.e. when `working` becomes false. -/

/-- The goroutine-visible state: the loop flag, the URL cursor, and the
pages sent on the output channel so far, in order. -/
structure EngineState where
  working : Bool
  dataURL : String
  emitted : List UpcomingMoviesResultPage

/-- One throttle-tick cycle: `http.Get` on the current URL (transport
failure stops the loop, nothing emitted), parse (failure stops the loop,
nothing emitted), emit the page, advance `dataURL` to the resolved next
URL, stopping when it is empty. -/
def cycleTick {β : Type} (transport : String → Except String (HttpResponse β))
    (unmarshal : β → Except String UpcomingMoviesResultPage)
    (s : EngineState) : EngineState :=
  match transport s.dataURL with
  | .error _ => { s with working := false }
  | .ok res =>
      match parseUpcomingMoviesResponse unmarshal res with
      | .error _ => { s with working := false }
      | .ok page =>
          let next := LinksMap.GetNextURL (some page.Links)
          if next = "" then { working := false, dataURL := next, emitted := s.emitted ++ [page] }
          else { working := true, dataURL := next, emitted := s.emitted ++ [page] }

/-- A Go runtime panic observable in the engine goroutine. -/
inductive GoPanic where
  | nilPointerDereference
deriving DecidableEq

/-- One `select` iteration of the engine loop. Evaluating the `select`
reads `query.Cancel`, which dereferences the query pointer: a nil query
panics here. `pickCancel` models the scheduler's choice when the
cancellation case is ready; in the source that case is
`case _, _ = <-query.Cancel: break`, whose `break` leaves only the
`select`, so the state is returned unchanged. Otherwise the tick fires. -/
def engineCycle {β : Type} (transport : String → Except String (HttpResponse β))
    (unmarshal : β → Except String UpcomingMoviesResultPage)
    (query : Option UpcomingMovieSearch) (pickCancel : Bool)
    (s : EngineState) : Except GoPanic EngineState :=
  match query with
  | none => .error .nilPointerDereference
  | some q =>
      if pickCancel && q.Cancel.ready then .ok s
      else .ok (cycleTick transport unmarshal s)

/-- Run the `for working` loop for one scheduler pick per cycle. The loop
is exited (and hence `pagesChan` closed by the deferred `close`) exactly
when `working` is false. -/
def runEngine {β : Type} (transport : String → Except String (HttpResponse β))
    (unmarshal : β → Except String UpcomingMoviesResultPage)
    (query : Option UpcomingMovieSearch) :
    List Bool → EngineState → Except GoPanic EngineState
  | [], s => .ok s
  | pick :: rest, s =>
      if s.working then
        match engineCycle transport unmarshal query pick s with
        | .error e => .error e
        | .ok s1 => runEngine transport unmarshal query rest s1
      else .ok s

/-- What `UpcomingMovies` hands to its goroutine when it starts: the
initial URL and the captured query pointer. -/
structure EngineHandle where
  dataURL : String
  query : Option UpcomingMovieSearch
deriving DecidableEq

/-- The goroutine's initial state: `working := true`, cursor at the
initial URL, nothing emitted. -/
def EngineHandle.initState (h : EngineHandle) : EngineState :=
  { working := true, dataURL := h.dataURL, emitted := [] }

/-- `Client.UpcomingMovies`, synchronous part: fail with the empty-key
error when the stored key is empty, build the initial URL, and start the
engine (returning the channel, modelled by the engine handle). -/
def Client.UpcomingMovies (c : Client) (query : Option UpcomingMovieSearch) :
    Except String EngineHandle :=
  if c.APIKey = "" then .error errEmptyAPIKey
  else
    match c.makeUpcomingMoviesURL query with
    | .error e => .error e
    | .ok dataURL => .ok { dataURL := dataURL, query := query }

/-- A transport serving a finite chain of pages from `u`: each page
carries a `"next"` link to the URL the chain continues at, and the final
page's links map has no `"next"` entry. -/
inductive NextChain {β : Type} (T : String → Except String (HttpResponse β))
    (um : β → Except String UpcomingMoviesResultPage) :
    String → List UpcomingMoviesResultPage → Prop where
  | last (u : String) (r : HttpResponse β) (p : UpcomingMoviesResultPage)
      (hT : T u = .ok r) (hp : parseUpcomingMoviesResponse um r = .ok p)
      (hnext : p.Links.lookup "next" = none) : NextChain T um u [p]
  | cons (u : String) (r : HttpResponse β) (p : UpcomingMoviesResultPage)
      (u' : String) (ps : List UpcomingMoviesResultPage)
      (hT : T u = .ok r) (hp : parseUpcomingMoviesResponse um r = .ok p)
      (hnext : p.Links.lookup "next" = some u') (hne : u' ≠ "")
      (htail : NextChain T um u' ps) : NextChain T um u (p :: ps)

/-- The key-resolution order the spec describes, for comparison with
`NewDefaultClient`: the first candidate (environment value first, then the
fallbacks in order) that is non-blank after trimming, untrimmed. -/
def spec_firstNonBlank : List String → Option String
  | [] => none
  | x :: rest => if trimSpace x = "" then spec_firstNonBlank rest else some x

/-! ## Substring testing (for the URL-shape claims) -/

/-- Whether the first list is a prefix of the second. -/
def leadsWith : List Char → List Char → Bool
  | [], _ => true
  | _ :: _, [] => false
  | a :: xs, b :: ys => a == b && leadsWith xs ys

/-- Whether the first list occurs contiguously inside the second. -/
def occursIn (needle : List Char) : List Char → Bool
  | [] => leadsWith needle []
  | b :: ys => leadsWith needle (b :: ys) || occursIn needle ys

/-- Whether `needle` occurs as a contiguous substring of `hay`. -/
def containsSubstr (hay needle : String) : Bool :=
  occursIn needle.data hay.data

/-! ## Concrete instances used to witness the theorems -/

/-- An identity unmarshaller: the body blob is already the decoded page
(JSON decoding is external, per the spec's scope). -/
def umId : UpcomingMoviesResultPage → Except String UpcomingMoviesResultPage :=
  fun b => .ok b

/-- A client with a non-empty key and default version. -/
def c1client : Client := { version := "", apiKey := "k" }

/-- A query with no cancellation channel (the zero value, a nil channel). -/
def q1 : UpcomingMovieSearch :=
  { ItemsPerPage := 0, MaxPage := 0, Country := "", Cancel := .nilChan }

/-- The URL `c1client` builds for `q1`. -/
def u1 : String :=
  "http://api.rottentomatoes.com/api/public/v1.0/lists/movies/upcoming/json?apikey=k"

/-- First page of a two-page chain: carries a `"next"` link to `"u2"`. -/
def p1a : UpcomingMoviesResultPage :=
  { Total := 25, Movies := [], Links := [("next", "u2")], LinkTemplate := "" }

/-- Last page of the chain: its links map has no `"next"` entry. -/
def p1b : UpcomingMoviesResultPage :=
  { Total := 25, Movies := [], Links := [], LinkTemplate := "" }

/-- Successful response carrying `p1a`. -/
def r1a : HttpResponse UpcomingMoviesResultPage :=
  { statusCode := 200, status := "200 OK", body := .ok p1a }

/-- Successful response carrying `p1b`. -/
def r1b : HttpResponse UpcomingMoviesResultPage :=
  { statusCode := 200, status := "200 OK", body := .ok p1b }

/-- A transport serving the two-page chain: `"u2"` yields the final page,
every other URL (in particular `u1`) yields the first page. -/
def T1 : String → Except String (HttpResponse UpcomingMoviesResultPage) :=
  fun s => if s = "u2" then .ok r1b else .ok r1a

/-- A query whose cancellation channel is already closed: the cancellation
case of the `select` is ready before the first tick. -/
def q2cancel : UpcomingMovieSearch :=
  { ItemsPerPage := 0, MaxPage := 0, Country := "", Cancel := .closedChan }

/-- A transport that always fails (never reached in the uses below). -/
def T2 : String → Except String (HttpResponse UpcomingMoviesResultPage) :=
  fun _ => .error "transport unused"

/-- The client of the URL-building scenario: version `"1.0"`, a plain key. -/
def c3client : Client := { version := "1.0", apiKey := "testkey" }

/-- The query of the URL-building scenario: `itemsPerPage=10`, `maxPage=2`,
empty country. -/
def c3query : UpcomingMovieSearch :=
  { ItemsPerPage := 10, MaxPage := 2, Country := "", Cancel := .nilChan }

/-- The all-zero/empty query. -/
def c3queryZero : UpcomingMovieSearch :=
  { ItemsPerPage := 0, MaxPage := 0, Country := "", Cancel := .nilChan }

/-- The URL the client builds for `c3query`. -/
def c3url : String :=
  "http://api.rottentomatoes.com/api/public/v1.0/lists/movies/upcoming/json?apikey=testkey&page=2&page_limit=10"

/-- A page whose links map contains the key `"next"` mapped to `""`. -/
def p4 : UpcomingMoviesResultPage :=
  { Total := 0, Movies := [], Links := [("next", "")], LinkTemplate := "" }

/-- Successful response carrying `p4`. -/
def r4 : HttpResponse UpcomingMoviesResultPage :=
  { statusCode := 200, status := "200 OK", body := .ok p4 }

/-- A transport always serving `p4`. -/
def T4 : String → Except String (HttpResponse UpcomingMoviesResultPage) :=
  fun _ => .ok r4

/-- Page 1 of the status-error scenario: links to `"u2"`. -/
def p5a : UpcomingMoviesResultPage :=
  { Total := 25, Movies := [], Links := [("next", "u2")], LinkTemplate := "" }

/-- Successful response carrying `p5a`. -/
def r5a : HttpResponse UpcomingMoviesResultPage :=
  { statusCode := 200, status := "200 OK", body := .ok p5a }

/-- The non-2xx response served for page 2. -/
def r5b : HttpResponse UpcomingMoviesResultPage :=
  { statusCode := 500, status := "500 Internal Server Error", body := .ok p1b }

/-- A transport succeeding on page 1 (any URL but `"u2"`) and returning a
non-2xx status on page 2 (`"u2"`). -/
def T5 : String → Except String (HttpResponse UpcomingMoviesResultPage) :=
  fun s => if s = "u2" then .ok r5b else .ok r5a

/-- A success page with zero movies and no `"next"` link. -/
def page6 : UpcomingMoviesResultPage :=
  { Total := 0, Movies := [], Links := [], LinkTemplate := "" }

/-- A 2xx response whose body decodes to `page6`. -/
def res6 : HttpResponse UpcomingMoviesResultPage :=
  { statusCode := 200, status := "200 OK", body := .ok page6 }

/-- A non-2xx response. -/
def res6bad : HttpResponse UpcomingMoviesResultPage :=
  { statusCode := 404, status := "404 Not Found", body := .ok page6 }

/-- A client with a non-empty key, for the nil-query scenario. -/
def c10client : Client := { version := "", apiKey := "k10" }

/-! ## Helper lemmas on trimming -/

lemma dropWhile_eq_self_of_head (p : Char → Bool) (l : List Char)
    (h : ∀ a, l.head? = some a → p a = false) : l.dropWhile p = l := by
  cases l with
  | nil => rfl
  | cons a t =>
      rw [List.dropWhile_cons, if_neg]
      simp [h a rfl]

lemma head_dropWhile_false (p : Char → Bool) :
    ∀ l : List Char, ∀ a, (l.dropWhile p).head? = some a → p a = false := by
  intro l
  induction l with
  | nil => intro a h; simp [List.dropWhile] at h
  | cons b t ih =>
      intro a h
      rw [List.dropWhile_cons] at h
      by_cases hb : p b = true
      · rw [if_pos hb] at h
        exact ih a h
      · rw [if_neg hb] at h
        simp only [List.head?_cons, Option.some.injEq] at h
        subst h
        simpa using hb

lemma dropWhile_dropWhile (p : Char → Bool) (l : List Char) :
    (l.dropWhile p).dropWhile p = l.dropWhile p :=
  dropWhile_eq_self_of_head p _ (head_dropWhile_false p l)

lemma prefixHeadEq {l1 l2 : List Char} (h : l1 <+: l2) (hne : l1 ≠ []) :
    l2.head? = l1.head? := by
  obtain ⟨t, rfl⟩ := h
  cases l1 with
  | nil => exact absurd rfl hne
  | cons a s => rfl

lemma dropWhile_isSuffix (p : Char → Bool) (l : List Char) : l.dropWhile p <:+ l := by
  induction l with
  | nil => simp
  | cons a t ih =>
      rw [List.dropWhile_cons]
      by_cases ha : p a = true
      · rw [if_pos ha]
        exact ih.trans (List.suffix_cons a t)
      · rw [if_neg ha]

lemma trimChars_left_trimmed (l : List Char) :
    (trimChars l).dropWhile isSpaceChar = trimChars l := by
  apply dropWhile_eq_self_of_head
  intro a ha
  have hpre : trimChars l <+: l.dropWhile isSpaceChar := by
    have hsuf : (l.dropWhile isSpaceChar).reverse.dropWhile isSpaceChar
        <:+ (l.dropWhile isSpaceChar).reverse := dropWhile_isSuffix _ _
    have h2 := (List.reverse_prefix).2 hsuf
    rwa [List.reverse_reverse] at h2
  have hne : trimChars l ≠ [] := by
    intro h0
    rw [h0] at ha
    cases ha
  have hA : (l.dropWhile isSpaceChar).head? = some a := by
    rw [prefixHeadEq hpre hne]
    exact ha
  exact head_dropWhile_false _ l a hA

lemma trimChars_idem (l : List Char) : trimChars (trimChars l) = trimChars l := by
  have h1 := trimChars_left_trimmed l
  show (((trimChars l).dropWhile isSpaceChar).reverse.dropWhile isSpaceChar).reverse
      = trimChars l
  rw [h1]
  show ((((l.dropWhile isSpaceChar).reverse.dropWhile isSpaceChar).reverse).reverse.dropWhile
      isSpaceChar).reverse = trimChars l
  rw [List.reverse_reverse, dropWhile_dropWhile]
  rfl

lemma trimSpace_idem (s : String) : trimSpace (trimSpace s) = trimSpace s := by
  show String.mk (trimChars (String.mk (trimChars s.data)).data) = trimSpace s
  rw [show (String.mk (trimChars s.data)).data = trimChars s.data from rfl, trimChars_idem]
  rfl

/-! ## Helper lemmas on key resolution -/

lemma spec_firstNonBlank_some_ne (l : List String) (k : String)
    (h : spec_firstNonBlank l = some k) : trimSpace k ≠ "" := by
  induction l with
  | nil => cases h
  | cons x rest ih =>
      rw [spec_firstNonBlank] at h
      by_cases hx : trimSpace x = ""
      · rw [if_pos hx] at h
        exact ih h
      · rw [if_neg hx] at h
        injection h with h
        subst h
        exact hx

lemma firstFallback_eq_spec (fbs : List String) :
    firstFallback fbs = ((spec_firstNonBlank fbs).map trimSpace).getD "" := by
  induction fbs with
  | nil => rfl
  | cons x rest ih =>
      by_cases hx : trimSpace x = "" <;>
        simp [firstFallback, spec_firstNonBlank, hx, ih]

lemma envOrDefault_eq_spec (envValue : String) (fbs : List String) :
    envOrDefault envValue fbs
      = ((spec_firstNonBlank (envValue :: fbs)).map trimSpace).getD "" := by
  by_cases hx : trimSpace envValue = "" <;>
    simp [envOrDefault, spec_firstNonBlank, hx, firstFallback_eq_spec]

/-- C8: client construction returns the empty-api-key error exactly when
the environment value and every fallback are blank after trimming;
otherwise the stored API key is the first non-blank candidate (environment
first, then fallbacks in order), trimmed of whitespace. -/
theorem newDefaultClient_first_nonblank (envValue : String) (fbs : List String) :
    (NewDefaultClient envValue fbs = .error errEmptyAPIKey
        ↔ spec_firstNonBlank (envValue :: fbs) = none)
  ∧ (∀ k, spec_firstNonBlank (envValue :: fbs) = some k →
        NewDefaultClient envValue fbs = .ok { version := "", apiKey := trimSpace k }) := by
  have hres := envOrDefault_eq_spec envValue fbs
  constructor
  · cases hs : spec_firstNonBlank (envValue :: fbs) with
    | none =>
        rw [hs] at hres
        simp only [Option.map_none', Option.getD_none] at hres
        simp [NewDefaultClient, Client.SetAPIKey, Client.APIKey, hres, hs]
        rfl
    | some k =>
        have hk := spec_firstNonBlank_some_ne _ _ hs
        rw [hs] at hres
        simp only [Option.map_some', Option.getD_some] at hres
        simp [NewDefaultClient, Client.SetAPIKey, Client.APIKey, hres, trimSpace_idem, hk, hs]
  · intro k hk
    have hkne := spec_firstNonBlank_some_ne _ _ hk
    rw [hk] at hres
    simp only [Option.map_some', Option.getD_some] at hres
    simp [NewDefaultClient, Client.SetAPIKey, Client.APIKey, hres, trimSpace_idem, hkne]

/-- Witness for C8: a blank environment value with fallbacks
`["", " key1 ", "k2"]` resolves to `"key1"`; an empty candidate list
yields the empty-api-key error. -/
theorem newDefaultClient_first_nonblank_witness :
    NewDefaultClient " " ["", " key1 ", "k2"] = .ok { version := "", apiKey := "key1" }
  ∧ NewDefaultClient "" [] = .error errEmptyAPIKey :=
  ⟨(newDefaultClient_first_nonblank " " ["", " key1 ", "k2"]).2 " key1 " (by decide),
   (newDefaultClient_first_nonblank "" []).1.mpr rfl⟩

/-- C9: `UpcomingMovies` fails synchronously with the empty-api-key error
exactly when the stored key is empty (no channel is created), and URL
construction itself never returns an error. -/
theorem upcomingMovies_error_iff_empty_key (c : Client) (q : Option UpcomingMovieSearch) :
    (c.APIKey = "" → c.UpcomingMovies q = .error errEmptyAPIKey)
  ∧ (c.APIKey ≠ "" →
        c.UpcomingMovies q = .ok { dataURL := c.upcomingMoviesURL q, query := q })
  ∧ (∀ e, c.UpcomingMovies q = .error e → c.APIKey = "" ∧ e = errEmptyAPIKey)
  ∧ c.makeUpcomingMoviesURL q = .ok (c.upcomingMoviesURL q) := by
  refine ⟨?_, ?_, ?_, rfl⟩
  · intro h
    simp [Client.UpcomingMovies, h]
  · intro h
    simp [Client.UpcomingMovies, h, Client.makeUpcomingMoviesURL]
  · intro e he
    by_cases h : c.APIKey = ""
    · refine ⟨h, ?_⟩
      simp [Client.UpcomingMovies, h] at he
      exact he.symm
    · simp [Client.UpcomingMovies, h, Client.makeUpcomingMoviesURL] at he

/-- Witness for C9: an empty-key client fails synchronously; a client with
key `"k"` starts the engine. -/
theorem upcomingMovies_error_iff_empty_key_witness :
    Client.UpcomingMovies { version := "", apiKey := "" } none = .error errEmptyAPIKey
  ∧ Client.UpcomingMovies { version := "", apiKey := "k" } none
      = .ok { dataURL := Client.upcomingMoviesURL { version := "", apiKey := "k" } none,
              query := none } :=
  ⟨(upcomingMovies_error_iff_empty_key { version := "", apiKey := "" } none).1 rfl,
   (upcomingMovies_error_iff_empty_key { version := "", apiKey := "k" } none).2.1 (by decide)⟩

/-- C7: the link resolver returns the value stored at `"next"`, and the
empty string when the receiver is nil or the key is absent; in particular
`\x7b"next": "X"\x7d ↦ "X"` and nil or `\x7b\x7d ↦ ""`. -/
theorem getNextURL_resolution :
    (∀ (m : LinksMap) (v : String),
        m.lookup "next" = some v → LinksMap.GetNextURL (some m) = v)
  ∧ (∀ m : LinksMap, m.lookup "next" = none → LinksMap.GetNextURL (some m) = "")
  ∧ LinksMap.GetNextURL none = ""
  ∧ LinksMap.GetNextURL (some [("next", "X")]) = "X"
  ∧ LinksMap.GetNextURL (some ([] : LinksMap)) = "" := by
  refine ⟨?_, ?_, rfl, rfl, rfl⟩
  · intro m v h
    simp [LinksMap.GetNextURL, h]
  · intro m h
    simp [LinksMap.GetNextURL, h]

/-- Witness for C7: the resolver applied to maps with and without a
`"next"` entry. -/
theorem getNextURL_resolution_witness :
    LinksMap.GetNextURL (some [("prev", "a"), ("next", "X")]) = "X"
  ∧ LinksMap.GetNextURL (some [("prev", "a")]) = "" :=
  ⟨getNextURL_resolution.1 [("prev", "a"), ("next", "X")] "X" rfl,
   getNextURL_resolution.2.1 [("prev", "a")] rfl⟩

/-- C6: the parser fails with an error carrying the status text exactly
when the status code is outside [200, 299]; on a 2xx status whose body
decodes, the decoded page is returned with no further validation. -/
theorem parse_status_and_success {β : Type}
    (um : β → Except String UpcomingMoviesResultPage) (res : HttpResponse β) :
    (parseUpcomingMoviesResponse um res = .error (ParseError.httpStatus res.status)
        ↔ statusOK res.statusCode = false)
  ∧ (statusOK res.statusCode = true ↔ 200 ≤ res.statusCode ∧ res.statusCode ≤ 299)
  ∧ (∀ b p, statusOK res.statusCode = true → res.body = .ok b → um b = .ok p →
        parseUpcomingMoviesResponse um res = .ok p) := by
  refine ⟨?_, by simp [statusOK], ?_⟩
  · cases hst : statusOK res.statusCode with
    | false => simp [parseUpcomingMoviesResponse, hst]
    | true =>
        cases hb : res.body with
        | error e => simp [parseUpcomingMoviesResponse, hst, hb]
        | ok blob =>
            cases hum : um blob with
            | error e => simp [parseUpcomingMoviesResponse, hst, hb, hum]
            | ok p => simp [parseUpcomingMoviesResponse, hst, hb, hum]
  · intro b p hst hb hum
    simp [parseUpcomingMoviesResponse, hst, hb, hum]

/-- Witness for C6: a 2xx response with an empty page parses to that page
(zero movies, no `"next"` link); a 404 yields the status-text error. -/
theorem parse_status_and_success_witness :
    parseUpcomingMoviesResponse umId res6 = .ok page6
  ∧ parseUpcomingMoviesResponse umId res6bad
      = .error (ParseError.httpStatus "404 Not Found") :=
  ⟨(parse_status_and_success umId res6).2.2 page6 page6 rfl rfl rfl,
   (parse_status_and_success umId res6bad).1.mpr rfl⟩

/-- Counterexample for C3: the URL built for `itemsPerPage=10`, `maxPage=2`,
empty country does not contain the substring `page_limit=10&page=2`,
because `url.Values.Encode` emits parameters sorted by key. -/
theorem url_paramOrder_claim_false :
    Client.makeUpcomingMoviesURL c3client (some c3query) = .ok c3url
  ∧ containsSubstr c3url "page_limit=10&page=2" = false := by
  constructor
  · show Except.ok (Client.upcomingMoviesURL c3client (some c3query)) = Except.ok c3url
    exact congrArg Except.ok (by with_unfolding_all decide)
  · decide

/-- C3 (amended): the built URL carries `page_limit=10` and `page=2` as its
only non-key parameters, encoded in sorted key order, so it contains
`page=2&page_limit=10`; no `country` parameter is attached for an empty
country, and an all-zero/empty query yields only the API key parameter. -/
theorem url_params_sorted_and_guarded (key : String) :
    Client.upcomingValues { version := "1.0", apiKey := key } (some c3query)
        = [("apikey", [key]), ("page_limit", ["10"]), ("page", ["2"])]
  ∧ (∀ qz : UpcomingMovieSearch,
        qz.ItemsPerPage ≤ 0 → qz.MaxPage ≤ 0 → qz.Country = "" →
        Client.upcomingValues { version := "1.0", apiKey := key } (some qz)
          = [("apikey", [key])])
  ∧ containsSubstr (Client.upcomingMoviesURL c3client (some c3query))
        "page=2&page_limit=10" = true
  ∧ containsSubstr (Client.upcomingMoviesURL c3client (some c3query)) "country" = false
  ∧ Client.upcomingMoviesURL c3client (some c3queryZero)
      = "http://api.rottentomatoes.com/api/public/v1.0/lists/movies/upcoming/json?apikey=testkey" := by
  refine ⟨rfl, ?_, by with_unfolding_all decide, by with_unfolding_all decide,
    by with_unfolding_all decide⟩
  intro qz h1 h2 h3
  have n1 : ¬ qz.ItemsPerPage > 0 := by omega
  have n2 : ¬ qz.MaxPage > 0 := by omega
  simp [Client.upcomingValues, n1, n2, h3]

/-- Witness for C3 (amended): the all-zero query of the scenario attaches
only the API key. -/
theorem url_params_sorted_and_guarded_witness :
    Client.upcomingValues { version := "1.0", apiKey := "testkey" } (some c3queryZero)
      = [("apikey", ["testkey"])] :=
  (url_params_sorted_and_guarded "testkey").2.1 c3queryZero (by decide) (by decide) rfl

/-- Counterexample for C4: a page whose links map contains the key
`"next"` (mapped to `""`) is emitted, yet the engine stops instead of
remaining running. -/
theorem nextKey_with_empty_value_stops :
    (p4.Links.lookup "next").isSome = true
  ∧ cycleTick T4 umId { working := true, dataURL := "u1", emitted := [] }
      = { working := false, dataURL := "", emitted := [p4] } :=
  ⟨rfl, rfl⟩

/-- C4 (amended): a cycle of the running engine stops only on a transport
error, a parse error, or an empty resolved next URL (key absent or mapped
to the empty string); whenever the emitted page maps `"next"` to a
non-empty URL the engine stays working and continues with that URL. -/
theorem cycle_stops_only_on_error_or_empty_next {β : Type}
    (T : String → Except String (HttpResponse β))
    (um : β → Except String UpcomingMoviesResultPage) (s : EngineState) :
    ((cycleTick T um s).working = false →
        (∃ e, T s.dataURL = .error e)
      ∨ (∃ r e, T s.dataURL = .ok r ∧ parseUpcomingMoviesResponse um r = .error e)
      ∨ (∃ r p, T s.dataURL = .ok r ∧ parseUpcomingMoviesResponse um r = .ok p
            ∧ LinksMap.GetNextURL (some p.Links) = ""))
  ∧ (∀ r p u', T s.dataURL = .ok r → parseUpcomingMoviesResponse um r = .ok p →
        p.Links.lookup "next" = some u' → u' ≠ "" →
        cycleTick T um s
          = { working := true, dataURL := u', emitted := s.emitted ++ [p] }) := by
  constructor
  · intro hstop
    cases hT : T s.dataURL with
    | error e => exact Or.inl ⟨e, rfl⟩
    | ok r =>
        cases hp : parseUpcomingMoviesResponse um r with
        | error e => exact Or.inr (Or.inl ⟨r, e, rfl, hp⟩)
        | ok p =>
            refine Or.inr (Or.inr ⟨r, p, rfl, hp, ?_⟩)
            by_contra hne
            simp [cycleTick, hT, hp, hne] at hstop
  · intro r p u' hT hp hlook hne
    simp [cycleTick, hT, hp, LinksMap.GetNextURL, hlook, hne]

/-- Witness for C4 (amended): a page linking to `"u2"` keeps the engine
working with `"u2"` as the new cursor. -/
theorem cycle_stops_only_on_error_or_empty_next_witness :
    cycleTick T1 umId { working := true, dataURL := u1, emitted := [] }
      = { working := true, dataURL := "u2", emitted := [p1a] } :=
  (cycle_stops_only_on_error_or_empty_next T1 umId
      { working := true, dataURL := u1, emitted := [] }).2
    r1a p1a "u2" rfl rfl rfl (by decide)

/-! ## Helper lemmas on the engine loop -/

lemma runEngine_stopped {β : Type} (T : String → Except String (HttpResponse β))
    (um : β → Except String UpcomingMoviesResultPage)
    (q : Option UpcomingMovieSearch) (sched : List Bool) (s : EngineState)
    (h : s.working = false) : runEngine T um q sched s = .ok s := by
  cases sched <;> simp [runEngine, h]

lemma chain_run {β : Type} (T : String → Except String (HttpResponse β))
    (um : β → Except String UpcomingMoviesResultPage)
    {u : String} {ps : List UpcomingMoviesResultPage}
    (hch : NextChain T um u ps) :
    ∀ (q : UpcomingMovieSearch), q.Cancel.ready = false →
    ∀ (sched : List Bool) (acc : List UpcomingMoviesResultPage),
      ps.length ≤ sched.length →
      runEngine T um (some q) sched { working := true, dataURL := u, emitted := acc }
        = .ok { working := false, dataURL := "", emitted := acc ++ ps } := by
  induction hch with
  | last u r p hT hp hnext =>
      intro q hq sched acc hlen
      cases sched with
      | nil => simp at hlen
      | cons b rest =>
          have hcyc : cycleTick T um { working := true, dataURL := u, emitted := acc }
              = { working := false, dataURL := "", emitted := acc ++ [p] } := by
            simp [cycleTick, hT, hp, LinksMap.GetNextURL, hnext]
          simp [runEngine, engineCycle, hq, hcyc, runEngine_stopped]
  | cons u r p u' ps hT hp hnext hne htail ih =>
      intro q hq sched acc hlen
      cases sched with
      | nil => simp at hlen
      | cons b rest =>
          have hcyc : cycleTick T um { working := true, dataURL := u, emitted := acc }
              = { working := true, dataURL := u', emitted := acc ++ [p] } := by
            simp [cycleTick, hT, hp, LinksMap.GetNextURL, hnext, hne]
          have hlen' : ps.length ≤ rest.length := by simpa using hlen
          have hrest := ih q hq rest (acc ++ [p]) hlen'
          simp [runEngine, engineCycle, hq, hcyc, hrest, List.append_assoc]

/-- C1: for a query with no cancellation channel and a transport serving a
chain of N pages linking to the following page plus a final page with no
`"next"` entry, the engine started by `UpcomingMovies` emits exactly the
N+1 chain pages in fetch order and exits the loop (closing the channel via
the deferred close), delivering no error. -/
theorem upcomingMovies_emits_chain {β : Type} (c : Client) (q : UpcomingMovieSearch)
    (T : String → Except String (HttpResponse β))
    (um : β → Except String UpcomingMoviesResultPage) (h : EngineHandle)
    (ps : List UpcomingMoviesResultPage) (N : Nat) (sched : List Bool)
    (hkey : c.APIKey ≠ "") (hcancel : q.Cancel = CancelSignal.nilChan)
    (hstart : c.UpcomingMovies (some q) = .ok h)
    (hchain : NextChain T um h.dataURL ps)
    (hN : ps.length = N + 1) (hsched : N + 1 ≤ sched.length) :
    runEngine T um h.query sched h.initState
      = .ok { working := false, dataURL := "", emitted := ps } := by
  have hh : h = { dataURL := c.upcomingMoviesURL (some q), query := some q } := by
    simp [Client.UpcomingMovies, hkey, Client.makeUpcomingMoviesURL] at hstart
    exact hstart.symm
  subst hh
  have hready : q.Cancel.ready = false := by rw [hcancel]; rfl
  have hrun := chain_run T um hchain q hready sched [] (by omega)
  simpa [EngineHandle.initState] using hrun

/-- Witness for C1: the two-page chain (`u1` → `"u2"` → end) emits exactly
the two pages in order and stops. -/
theorem upcomingMovies_emits_chain_witness :
    runEngine T1 umId (some q1) [false, false]
        (EngineHandle.initState { dataURL := u1, query := some q1 })
      = .ok { working := false, dataURL := "", emitted := [p1a, p1b] } :=
  upcomingMovies_emits_chain c1client q1 T1 umId { dataURL := u1, query := some q1 }
    [p1a, p1b] 1 [false, false] (by decide) rfl rfl
    (NextChain.cons u1 r1a p1a "u2" [p1b] rfl rfl rfl (by decide)
      (NextChain.last "u2" r1b p1b rfl rfl rfl))
    rfl (by decide)

/-- C5: with a transport succeeding on page 1 (which links to page 2) and
returning a non-2xx status on page 2, the engine emits exactly the first
page and then exits the loop (closing the channel), with nothing emitted
for the failed cycle. -/
theorem statusError_on_second_page_emits_one (b1 b2 : Bool) (rest : List Bool) :
    runEngine T5 umId (some q1) (b1 :: b2 :: rest)
        { working := true, dataURL := "u1", emitted := [] }
      = .ok { working := false, dataURL := "u2", emitted := [p5a] } := by
  have hready : q1.Cancel.ready = false := rfl
  have hc1 : cycleTick T5 umId { working := true, dataURL := "u1", emitted := [] }
      = { working := true, dataURL := "u2", emitted := [p5a] } := rfl
  have hc2 : cycleTick T5 umId { working := true, dataURL := "u2", emitted := [p5a] }
      = { working := false, dataURL := "u2", emitted := [p5a] } := rfl
  simp [runEngine, engineCycle, hready, hc1, hc2, runEngine_stopped]

/-- Theorem for C2 (code bug): when the cancellation channel is pending
(closed) and the `select` keeps choosing the cancellation case — which it
does deterministically before the first tick — the loop state never
changes: `working` stays true, nothing is emitted, and the loop never
exits, so the channel is never closed. The claimed transition to Stopped
does not occur because the source's `break` leaves only the `select`. -/
theorem cancelPending_cancelCase_never_stops {β : Type}
    (T : String → Except String (HttpResponse β))
    (um : β → Except String UpcomingMoviesResultPage)
    (n : Nat) (s : EngineState) (hw : s.working = true) :
    runEngine T um (some q2cancel) (List.replicate n true) s = .ok s := by
  induction n with
  | zero => rfl
  | succ m ih =>
      have hcyc : engineCycle T um (some q2cancel) true s = .ok s := by
        simp [engineCycle, q2cancel, CancelSignal.ready]
      simp [List.replicate, runEngine, hw, hcyc]
      exact ih

/-- Witness for C2's theorem: three cancel-case cycles leave the initial
state untouched. -/
theorem cancelPending_cancelCase_never_stops_witness :
    runEngine T2 umId (some q2cancel) (List.replicate 3 true)
        { working := true, dataURL := "u0", emitted := [] }
      = .ok { working := true, dataURL := "u0", emitted := [] } :=
  cancelPending_cancelCase_never_stops T2 umId 3
    { working := true, dataURL := "u0", emitted := [] } rfl

/-- C10: starting `UpcomingMovies` with a nil query on a client with a
non-empty key succeeds synchronously (the URL builder tolerates the nil
query), but the first loop cycle dereferences the nil query when the
`select` evaluates `query.Cancel`, so the engine panics instead of
running. -/
theorem nilQuery_starts_then_derefs
    (T : String → Except String (HttpResponse UpcomingMoviesResultPage))
    (um : UpcomingMoviesResultPage → Except String UpcomingMoviesResultPage)
    (pick : Bool) (sched : List Bool) (s : EngineState) (hw : s.working = true) :
    Client.UpcomingMovies c10client none
        = .ok { dataURL := Client.upcomingMoviesURL c10client none, query := none }
  ∧ engineCycle T um none pick s = .error GoPanic.nilPointerDereference
  ∧ runEngine T um none (pick :: sched) s = .error GoPanic.nilPointerDereference := by
  refine ⟨?_, rfl, ?_⟩
  · have hne : c10client.APIKey ≠ "" := by decide
    simp [Client.UpcomingMovies, hne, Client.makeUpcomingMoviesURL]
  · simp [runEngine, hw, engineCycle]

/-- Witness for C10: one cycle from a working state with the nil query
panics with a nil pointer dereference. -/
theorem nilQuery_starts_then_derefs_witness :
    runEngine T2 umId none [false]
        { working := true, dataURL := "u0", emitted := [] }
      = .error GoPanic.nilPointerDereference :=
  (nilQuery_starts_then_derefs T2 umId false []
      { working := true, dataURL := "u0", emitted := [] } rfl).2.2

end Fandango
